import Mathlib

/-!
Shallow embedding of the adaptive assessment engine
(frontend/src/lib/test-engine.ts, types in frontend/src/types/tests.ts).

Modelling conventions:
* JavaScript numbers are modelled as rationals.  A possibly-NaN JavaScript
  number is an `Option ℚ` with `none` standing for a non-finite value
  (NaN, and the Infinity produced by dividing by zero); the js-prefixed
  helpers reproduce the propagation and comparison rules of IEEE NaN
  (any comparison against NaN is false, arithmetic with NaN yields NaN).
* A response value of TypeScript type `number | string` is `RValue`;
  a string value carries only its `parseInt` result (`none` when the
  string does not parse, i.e. parseInt returns NaN), which is the only
  observation the engine ever makes of a string value.
* Record fields the engine never reads (question text, template name,
  category, durations, alert messages, urgency, severity, colors of
  unused ranges, the wall-clock fields start_time and last_activity)
  are omitted from the embedding; no claim mentions them.
* Mutation is made explicit: every engine method that (transitively)
  calls getVisibleQuestions - which pushes the ids of hidden questions
  onto session.branching_state.skipped_questions - returns the updated
  session next to its value.
-/

/-- Question type enumeration from tests.ts. -/
inductive QuestionType where
  | likert
  | boolean
  | choice
  | scale
deriving DecidableEq

/-- Scoring strategy tags of ScoringRules.type. -/
inductive ScoringType where
  | simple_sum
  | weighted_sum
  | dimensional
  | categorical
deriving DecidableEq

/-- Normalization method tags of ScoringRules.normalization_method. -/
inductive NormMethod where
  | percentage
  | z_score
  | percentile
deriving DecidableEq

/-- Risk levels used by RiskIndicator and TestResults. -/
inductive RiskLevel where
  | low
  | moderate
  | high
deriving DecidableEq

/-- A response value of TypeScript type number | string.  A string value is
represented by its parseInt result; `str none` is a string that does not
parse to a number (parseInt yields NaN). -/
inductive RValue where
  | num (v : ℚ)
  | str (p : Option ℤ)
deriving DecidableEq

/-- TestQuestion record (tests.ts).  Fields the engine never reads are
omitted.  Identifiers are naturals; order and the numeric bounds are
rationals (JavaScript numbers). -/
structure TestQuestion where
  id : ℕ
  order : ℚ
  min_value : ℚ
  max_value : ℚ
  weight : ℚ
  dimension_pair : Option String
  show_if_question_id : Option ℕ
  show_if_value : Option ℚ
  question_type : QuestionType
  options : Option (List String)
  reverse_scored : Bool
  required : Bool
deriving DecidableEq

/-- TestResponse record (tests.ts). -/
structure TestResponse where
  question_id : ℕ
  value : RValue
  response_time_ms : Option ℚ
  skipped : Bool
deriving DecidableEq

/-- ScoringRules record (tests.ts).  An absent dimensions list is the empty
list (the engine reads it as rules.dimensions or []). -/
structure ScoringRules where
  type : ScoringType
  dimensions : List String
  normalization_method : Option NormMethod
deriving DecidableEq

/-- ScoreRange record (tests.ts). -/
structure ScoreRange where
  min_score : ℚ
  max_score : ℚ
  label : String
  description : String
  color : String
deriving DecidableEq

/-- RecommendationRule record (tests.ts); the condition is the raw
condition string. -/
structure RecommendationRule where
  condition : String
  recommendations : List String
deriving DecidableEq

/-- RiskIndicator record (tests.ts). -/
structure RiskIndicator where
  question_ids : List ℕ
  threshold_values : List ℚ
  risk_level : RiskLevel
deriving DecidableEq

/-- InterpretationGuide record (tests.ts). -/
structure InterpretationGuide where
  score_ranges : List ScoreRange
  recommendations : List RecommendationRule
  risk_indicators : List RiskIndicator
deriving DecidableEq

/-- TestTemplate record (tests.ts), restricted to the fields the engine
reads. -/
structure TestTemplate where
  key : String
  questions : List TestQuestion
  scoring_rules : ScoringRules
  interpretation_guide : InterpretationGuide
  branching_enabled : Bool
deriving DecidableEq

/-- BranchingState record (tests.ts).  active_conditions is a
Record(number, value); it is modelled as an insertion-ordered
association list, matching JavaScript object key semantics. -/
structure BranchingState where
  active_conditions : List (ℕ × RValue)
  skipped_questions : List ℕ
  conditional_paths : List String
deriving DecidableEq

/-- TestSession record (tests.ts) without the wall-clock bookkeeping
fields start_time and last_activity, which no claim mentions. -/
structure TestSession where
  current_question : ℕ
  responses : List TestResponse
  branching_state : BranchingState
deriving DecidableEq

/-- TestResults record (tests.ts).  Possibly-NaN numeric fields are
Option ℚ; fields only set by some strategies are wrapped in a further
Option. -/
structure TestResults where
  raw_score : Option ℚ
  normalized_score : Option ℚ
  dimension_scores : Option (List (String × Option ℚ))
  interpretation : String
  detailed_feedback : String
  recommendations : List String
  risk_level : RiskLevel
  follow_up_suggested : Bool
  percentile_rank : Option (Option ℚ)
  comparison_group : Option String
deriving DecidableEq

/-- The session the TestEngine constructor builds. -/
def initialSession : TestSession :=
  { current_question := 0
    responses := []
    branching_state := { active_conditions := [], skipped_questions := [], conditional_paths := [] } }

/-- JavaScript addition on possibly-NaN numbers: NaN propagates. -/
def jsAdd : Option ℚ → Option ℚ → Option ℚ
  | some a, some b => some (a + b)
  | _, _ => none

/-- JavaScript multiplication on possibly-NaN numbers: NaN propagates
(note NaN * 0 is NaN in JavaScript, matching propagation). -/
def jsMul : Option ℚ → Option ℚ → Option ℚ
  | some a, some b => some (a * b)
  | _, _ => none

/-- JavaScript division on possibly-NaN numbers.  Division by zero yields
a non-finite value (Infinity or NaN), collapsed to `none` like NaN; no
claim distinguishes the two, every comparison the engine makes against
either of them is false. -/
def jsDiv : Option ℚ → Option ℚ → Option ℚ
  | some a, some b => if b = 0 then none else some (a / b)
  | _, _ => none

/-- JavaScript comparison a >= b: false when either side is NaN. -/
def jsGe : Option ℚ → Option ℚ → Bool
  | some a, some b => decide (b ≤ a)
  | _, _ => false

/-- JavaScript comparison a <= b: false when either side is NaN. -/
def jsLe : Option ℚ → Option ℚ → Bool
  | some a, some b => decide (a ≤ b)
  | _, _ => false

/-- JavaScript comparison a < b: false when either side is NaN. -/
def jsLt : Option ℚ → Option ℚ → Bool
  | some a, some b => decide (a < b)
  | _, _ => false

/-- JavaScript comparison a > b: false when either side is NaN. -/
def jsGt : Option ℚ → Option ℚ → Bool
  | some a, some b => decide (b < a)
  | _, _ => false

/-- JavaScript strict equality of two possibly-NaN numbers: NaN === NaN is
false. -/
def jsEqNum : Option ℚ → Option ℚ → Bool
  | some a, some b => decide (a = b)
  | _, _ => false

/-- Math.round, rounding half toward positive infinity; NaN rounds to NaN. -/
def jsRound (v : Option ℚ) : Option ℚ :=
  v.map (fun x => ((Rat.floor (x + 1/2) : ℤ) : ℚ))

/-- Math.max over a spread list: NaN if any argument is NaN, and minus
Infinity when the list is empty; both are collapsed to `none` (the engine
only compares the result with strict equality, which is false against
NaN and cannot see minus Infinity because the key list is then empty). -/
def jsMaxList (l : List (Option ℚ)) : Option ℚ :=
  if l.any (fun v => v.isNone) then none
  else
    match l.filterMap id with
    | [] => none
    | x :: xs => some (xs.foldl max x)

/-- Numeric view of a response value exactly as the engine computes it:
typeof value === string ? parseInt(value) : value. -/
def parseRV : RValue → Option ℚ
  | RValue.num v => some v
  | RValue.str p => p.map (fun n => (n : ℚ))

/-- Insertion-ordered write into a JavaScript object modelled as an
association list: overwrite in place if the key exists, append otherwise. -/
def setKey (m : List (ℕ × RValue)) (k : ℕ) (v : RValue) : List (ℕ × RValue) :=
  if m.any (fun p => p.1 = k) then
    m.map (fun p => if p.1 = k then (k, v) else p)
  else m ++ [(k, v)]

/-- Deletion of a key from a JavaScript object modelled as an association
list. -/
def delKey (m : List (ℕ × RValue)) (k : ℕ) : List (ℕ × RValue) :=
  m.filter (fun p => p.1 ≠ k)

/-- The question ordering used by getVisibleQuestions:
questions.sort((a, b) => a.order - b.order), a stable ascending sort on
the order field.  Mathlib insertionSort with a total preorder is stable,
matching the JavaScript specification of Array.prototype.sort. -/
def sortByOrder (l : List TestQuestion) : List TestQuestion :=
  List.insertionSort (fun a b => a.order ≤ b.order) l

/-- evaluateBranchingCondition (test-engine.ts line 93): a string response
is parseInt-coerced (a non-parsing string gives NaN, and NaN >= x is
false); the condition holds iff the response value is at least the
condition value. -/
def evaluateBranchingCondition (responseValue : RValue) (conditionValue : ℚ) : Bool :=
  match responseValue with
  | RValue.str p =>
    match p with
    | some n => decide (conditionValue ≤ (n : ℚ))
    | none => false
  | RValue.num x => decide (conditionValue ≤ x)

/-- shouldShowQuestion (test-engine.ts line 71).  The guard
(!question.show_if_question_id or show_if_value === undefined) treats a
missing condition-question id, a condition-question id of 0 (falsy in
JavaScript), or a missing condition value as no condition.  Otherwise the
first recorded response to the condition question decides (responses.find);
no response means hidden. -/
def shouldShowQuestion (rs : List TestResponse) (q : TestQuestion) : Bool :=
  match q.show_if_question_id, q.show_if_value with
  | some cid, some cv =>
    if cid = 0 then true
    else
      match rs.find? (fun r => r.question_id = cid) with
      | none => false
      | some r => evaluateBranchingCondition r.value cv
  | _, _ => true

/-- The visible-question list computed by getVisibleQuestions
(test-engine.ts line 49): without branching, the order-sorted question
list; with branching, its order-preserving filtration by
shouldShowQuestion. -/
def visibleList (t : TestTemplate) (rs : List TestResponse) : List TestQuestion :=
  if t.branching_enabled = false then sortByOrder t.questions
  else (sortByOrder t.questions).filter (fun q => shouldShowQuestion rs q)

/-- The ids the getVisibleQuestions loop pushes onto
branching_state.skipped_questions: the hidden questions, in order (empty
when branching is disabled). -/
def hiddenIds (t : TestTemplate) (rs : List TestResponse) : List ℕ :=
  if t.branching_enabled = false then []
  else ((sortByOrder t.questions).filter (fun q => shouldShowQuestion rs q = false)).map (fun q => q.id)

/-- getVisibleQuestions (test-engine.ts line 49).  The loop appends each
shown question to the returned list and pushes each hidden question id
onto session.branching_state.skipped_questions; the updated session is
returned alongside the list. -/
def getVisibleQuestions (t : TestTemplate) (s : TestSession) : List TestQuestion × TestSession :=
  (visibleList t s.responses,
   { s with branching_state :=
      { s.branching_state with
        skipped_questions := s.branching_state.skipped_questions ++ hiddenIds t s.responses } })

/-- getCurrentQuestion (test-engine.ts line 36): null once
current_question reaches the visible-list length, else the
current_question-th visible question. -/
def getCurrentQuestion (t : TestTemplate) (s : TestSession) : Option TestQuestion × TestSession :=
  let qs := getVisibleQuestions t s
  if qs.1.length ≤ s.current_question then (none, qs.2)
  else (qs.1[s.current_question]?, qs.2)

/-- validateResponse (test-engine.ts line 159): a string answer to a
choice question with a declared option list must parseInt to an in-bounds
index (parseInt NaN fails both bound checks); any other string is
accepted; a numeric answer must lie within [min_value, max_value]. -/
def validateResponse (q : TestQuestion) (response : RValue) : Bool :=
  match response with
  | RValue.str p =>
    if q.question_type = QuestionType.choice ∧ q.options.isSome then
      match p with
      | some idx => decide (0 ≤ idx) && decide (idx < ((q.options.getD []).length : ℤ))
      | none => false
    else true
  | RValue.num x => decide (q.min_value ≤ x) && decide (x ≤ q.max_value)

/-- updateBranchingState (test-engine.ts line 176): record the response
under active_conditions, then for every question whose
show_if_question_id strictly equals the answered id, push the path key
if the condition holds against show_if_value or 0 (JavaScript falsy
default, so an absent or zero threshold becomes 0). -/
def updateBranchingState (t : TestTemplate) (q : TestQuestion) (response : RValue) (s : TestSession) : TestSession :=
  let bs := s.branching_state
  let withCond := setKey bs.active_conditions q.id response
  let affected := t.questions.filter (fun aq => aq.show_if_question_id = some q.id)
  let newPaths :=
    (affected.filter (fun aq => evaluateBranchingCondition response (aq.show_if_value.getD 0))).map
      (fun aq => toString q.id ++ "->" ++ toString aq.id)
  { s with branching_state :=
      { bs with active_conditions := withCond, conditional_paths := bs.conditional_paths ++ newPaths } }

/-- Outcome of answerQuestion: ok (true), noQuestion (false), or the
thrown invalid-response Error. -/
inductive AnswerOutcome where
  | ok
  | noQuestion
  | invalid
deriving DecidableEq

/-- answerQuestion (test-engine.ts line 103): fetch the current question
(mutating skipped_questions through getVisibleQuestions), validate,
append the response, update branching state, advance the pointer.  The
invalid case models the thrown Error, leaving the session as it stood at
the throw. -/
def answerQuestion (t : TestTemplate) (response : RValue) (responseTimeMs : Option ℚ) (s : TestSession) : AnswerOutcome × TestSession :=
  let c := getCurrentQuestion t s
  match c.1 with
  | none => (AnswerOutcome.noQuestion, c.2)
  | some q =>
    if validateResponse q response = false then (AnswerOutcome.invalid, c.2)
    else
      let s2 := { c.2 with responses := c.2.responses ++ [{ question_id := q.id, value := response, response_time_ms := responseTimeMs, skipped := false }] }
      let s3 := updateBranchingState t q response s2
      (AnswerOutcome.ok, { s3 with current_question := s3.current_question + 1 })

/-- skipQuestion (test-engine.ts line 137): rejected when there is no
current question or it is required; otherwise a skipped response with
value 0 is appended and the pointer advances. -/
def skipQuestion (t : TestTemplate) (s : TestSession) : Bool × TestSession :=
  let c := getCurrentQuestion t s
  match c.1 with
  | none => (false, c.2)
  | some q =>
    if q.required then (false, c.2)
    else
      (true,
       { c.2 with
          responses := c.2.responses ++ [{ question_id := q.id, value := RValue.num 0, response_time_ms := none, skipped := true }]
          current_question := c.2.current_question + 1 })

/-- previousQuestion (test-engine.ts line 195): rejected at the first
question; otherwise decrement the pointer, look up the now-current
visible question, and if it exists drop every response to it and its
active_conditions entry. -/
def previousQuestion (t : TestTemplate) (s : TestSession) : Bool × TestSession :=
  if s.current_question = 0 then (false, s)
  else
    let s1 := { s with current_question := s.current_question - 1 }
    let vq := getVisibleQuestions t s1
    match vq.1[s1.current_question]? with
    | some q =>
      (true,
       { vq.2 with
          responses := vq.2.responses.filter (fun r => r.question_id ≠ q.id)
          branching_state := { vq.2.branching_state with active_conditions := delKey vq.2.branching_state.active_conditions q.id } })
    | none => (true, vq.2)

/-- isComplete (test-engine.ts line 220): every required visible question
has a non-skipped response.  The getVisibleQuestions call mutates
skipped_questions; the updated session is returned alongside. -/
def isComplete (t : TestTemplate) (s : TestSession) : Bool × TestSession :=
  let vq := getVisibleQuestions t s
  let requiredQuestions := vq.1.filter (fun q => q.required)
  let answeredRequired := requiredQuestions.filter
    (fun q => s.responses.any (fun r => r.question_id = q.id && r.skipped = false))
  (answeredRequired.length = requiredQuestions.length, vq.2)

/-- The raw-score accumulation step of calculateSimpleSum
(test-engine.ts line 284): skipped responses, responses to unknown
questions, and responses to weight-0 questions are passed over;
otherwise the parseInt-coerced (possibly reverse-scored) value times the
weight is added, with NaN propagating. -/
def simpleSumStep (t : TestTemplate) (acc : Option ℚ) (r : TestResponse) : Option ℚ :=
  if r.skipped then acc
  else
    match t.questions.find? (fun q => q.id = r.question_id) with
    | none => acc
    | some q =>
      if q.weight = 0 then acc
      else
        let v := parseRV r.value
        let v2 := if q.reverse_scored then v.map (fun x => q.max_value - x + q.min_value) else v
        jsAdd acc (jsMul v2 (some q.weight))

/-- The raw score of calculateSimpleSum: the fold of simpleSumStep over
the recorded responses, starting from 0. -/
def rawScoreSimple (t : TestTemplate) (rs : List TestResponse) : Option ℚ :=
  rs.foldl (simpleSumStep t) (some 0)

/-- maxPossibleScore of calculateSimpleSum (test-engine.ts line 282): the
sum of max_value over every template question.  Question weights are not
consulted. -/
def maxPossibleScore (t : TestTemplate) : ℚ :=
  t.questions.foldl (fun s q => s + q.max_value) 0

/-- getInterpretation (test-engine.ts line 390): the first range
containing the score (NaN is contained in no range), with the fixed
fallback range. -/
def getInterpretation (score : Option ℚ) : List ScoreRange → ScoreRange
  | [] =>
    { min_score := 0, max_score := 100, label := "Unknown"
      description := "Score interpretation not available", color := "#6c757d" }
  | range :: rest =>
    if jsGe score (some range.min_score) && jsLe score (some range.max_score) then range
    else getInterpretation score rest

/-- getRecommendations (test-engine.ts line 410), parametric in the
condition evaluator.  The source feeds the condition string through
direct JavaScript eval after substituting the score (see
evaluateCondition, line 425).  Direct eval is a general-purpose
evaluator with access to the enclosing scope, so a stateful condition
string can return different booleans on successive calls and can mutate
engine or global state; none of that is expressible for a Lean function.
The evaluator is therefore abstracted as a function of the condition
string and the score, and every theorem whose conclusion depends on this
purity holds relative to that assumption: such theorems quantify over
the evaluator and their claim text discloses the proviso (C5), while the
eval hazard itself is recorded at C9. -/
def getRecommendations (evalCond : String → Option ℚ → Bool) (score : Option ℚ) (rules : List RecommendationRule) : List String :=
  rules.foldl (fun acc rule => if evalCond rule.condition score then acc ++ rule.recommendations else acc) []

/-- calculatePercentileRank (test-engine.ts line 475): Math.round of the
score. -/
def calculatePercentileRank (score : Option ℚ) : Option ℚ :=
  jsRound score

/-- calculateSimpleSum (test-engine.ts line 280), as a pure function of
the template and the recorded responses. -/
def calculateSimpleSum (evalCond : String → Option ℚ → Bool) (rules : ScoringRules) (guide : InterpretationGuide) (t : TestTemplate) (rs : List TestResponse) : TestResults :=
  let rawScore := rawScoreSimple t rs
  let normalizedScore :=
    if rules.normalization_method = some NormMethod.percentage then
      jsMul (jsDiv rawScore (some (maxPossibleScore t))) (some 100)
    else rawScore
  let interpretation := getInterpretation normalizedScore guide.score_ranges
  { raw_score := rawScore
    normalized_score := normalizedScore
    dimension_scores := none
    interpretation := interpretation.label
    detailed_feedback := interpretation.description
    recommendations := getRecommendations evalCond normalizedScore guide.recommendations
    risk_level := RiskLevel.low
    follow_up_suggested := false
    percentile_rank := some (calculatePercentileRank normalizedScore)
    comparison_group := some "General Population" }

/-- calculateWeightedSum (test-engine.ts line 323) simply delegates to
calculateSimpleSum. -/
def calculateWeightedSum (evalCond : String → Option ℚ → Bool) (rules : ScoringRules) (guide : InterpretationGuide) (t : TestTemplate) (rs : List TestResponse) : TestResults :=
  calculateSimpleSum evalCond rules guide t rs

/-- The accumulated score of one dimension in calculateDimensionalScore
(test-engine.ts line 341): over non-skipped responses whose question
carries that dimension_pair (an empty-string dimension_pair is falsy in
JavaScript and is passed over), add the parseInt-coerced, possibly
reverse-scored value times the weight.  The source accumulates all
dimensions in one pass over a record initialized to 0 per declared
dimension; updates to distinct keys commute, so the per-key fold is the
same record. -/
def dimensionStep (t : TestTemplate) (d : String) (acc : Option ℚ) (r : TestResponse) : Option ℚ :=
  if r.skipped then acc
  else
    match t.questions.find? (fun q => q.id = r.question_id) with
    | none => acc
    | some q =>
      match q.dimension_pair with
      | none => acc
      | some dim =>
        if dim = "" then acc
        else if dim = d then
          let v := parseRV r.value
          let v2 := if q.reverse_scored then v.map (fun x => q.max_value - x + q.min_value) else v
          jsAdd acc (jsMul v2 (some q.weight))
        else acc

/-- The accumulated score of one dimension: the fold of dimensionStep over
the recorded responses, starting from 0. -/
def dimensionScore (t : TestTemplate) (rs : List TestResponse) (d : String) : Option ℚ :=
  rs.foldl (dimensionStep t d) (some 0)

/-- generateDimensionalFeedback (test-engine.ts line 484): sort the
dimension entries by descending score, keep the top three, and format.
The JavaScript comparator (b - a) leaves the order of NaN entries
implementation-defined; the model uses a stable sort that ranks NaN
lowest.  toFixed(1) is modelled as decimal rounding of the rational. -/
def jsToFixed1 (v : Option ℚ) : String :=
  match v with
  | none => "NaN"
  | some x =>
    let n : ℤ := Rat.floor (x * 10 + 1/2)
    (if n < 0 then "-" else "") ++ toString (n.natAbs / 10) ++ "." ++ toString (n.natAbs % 10)

/-- Stable insertion used to model the descending sort in
generateDimensionalFeedback. -/
def insertDescBy (a : String × Option ℚ) : List (String × Option ℚ) → List (String × Option ℚ)
  | [] => [a]
  | b :: l => if jsGe a.2 b.2 then a :: b :: l else b :: insertDescBy a l

/-- Descending stable sort of dimension entries by score. -/
def sortDescByScore (l : List (String × Option ℚ)) : List (String × Option ℚ) :=
  l.foldr insertDescBy []

/-- generateDimensionalFeedback (test-engine.ts line 484). -/
def generateDimensionalFeedback (scores : List (String × Option ℚ)) : String :=
  let top := (sortDescByScore scores).take 3
  "Your strongest traits are: " ++
    String.intercalate ", " (top.map (fun p => p.1 ++ " (" ++ jsToFixed1 p.2 ++ ")"))

/-- getDimensionalRecommendations (test-engine.ts line 496): per entry, a
strength message above 4.0, else a development message below 2.0 (NaN
triggers neither). -/
def getDimensionalRecommendations (scores : List (String × Option ℚ)) : List String :=
  scores.foldl
    (fun acc p =>
      if jsGt p.2 (some 4) then
        acc ++ ["Your high " ++ p.1 ++ " is a strength - continue leveraging this trait"]
      else if jsLt p.2 (some 2) then
        acc ++ ["Consider developing your " ++ p.1 ++ " skills for better balance"]
      else acc)
    []

/-- Helper for the JavaScript object keys of the dimension record: the
declared dimensions with duplicates removed, keeping first occurrences
in order. -/
def dedupFirst : List String → List String
  | [] => []
  | d :: rest => d :: (dedupFirst rest).filter (fun x => decide (x ≠ d))

/-- calculateDimensionalScore (test-engine.ts line 331) as a pure function
of template and responses.  Record keys are the declared dimensions in
first-occurrence order (JavaScript object keys); the dominant dimension
is the first key whose score strictly equals the maximum, defaulting to
Unknown when none matches (empty key list, or a NaN maximum) or when the
found key is the empty string (falsy). -/
def calculateDimensionalScore (evalCond : String → Option ℚ → Bool) (rules : ScoringRules) (guide : InterpretationGuide) (t : TestTemplate) (rs : List TestResponse) : TestResults :=
  let keys := dedupFirst rules.dimensions
  let dimensionScores := keys.map (fun d => (d, dimensionScore t rs d))
  let values := dimensionScores.map (fun p => p.2)
  let maxScore := jsMaxList values
  let dominantDimension :=
    match dimensionScores.find? (fun p => jsEqNum p.2 maxScore) with
    | some p => if p.1 = "" then "Unknown" else p.1
    | none => "Unknown"
  let overallScore := jsDiv (values.foldl jsAdd (some 0)) (some ((rules.dimensions.length : ℚ)))
  { raw_score := overallScore
    normalized_score := jsMul (jsDiv overallScore (some 5)) (some 100)
    dimension_scores := some dimensionScores
    interpretation := "Dominant trait: " ++ dominantDimension
    detailed_feedback := generateDimensionalFeedback dimensionScores
    recommendations := getDimensionalRecommendations dimensionScores
    risk_level := RiskLevel.low
    follow_up_suggested := false
    percentile_rank := none
    comparison_group := none }

/-- calculateCategoricalScore (test-engine.ts line 382) delegates to
calculateDimensionalScore. -/
def calculateCategoricalScore (evalCond : String → Option ℚ → Bool) (rules : ScoringRules) (guide : InterpretationGuide) (t : TestTemplate) (rs : List TestResponse) : TestResults :=
  calculateDimensionalScore evalCond rules guide t rs

/-- The threshold picked for the i-th relevant response in assessRisk
(test-engine.ts line 451): threshold_values[i] falls back to
threshold_values[0] when missing or zero (JavaScript || treats 0 as
falsy); an empty threshold list leaves it undefined (none). -/
def riskThreshold (tv : List ℚ) (i : ℕ) : Option ℚ :=
  match tv[i]? with
  | some x => if x = 0 then tv[0]? else some x
  | none => tv[0]?

/-- Whether one indicator fires (test-engine.ts lines 443 to 458): among
the non-skipped responses whose question id the indicator names, in
response-list order, the i-th has a parseInt-coerced value at least the
i-th riskThreshold (any comparison against NaN or an undefined threshold
is false). -/
def indicatorFires (rs : List TestResponse) (ind : RiskIndicator) : Bool :=
  let relevant := rs.filter (fun r => ind.question_ids.contains r.question_id && r.skipped = false)
  relevant.enum.any (fun p => jsGe (parseRV p.2.value) (riskThreshold ind.threshold_values p.1))

/-- The indicator loop of assessRisk (test-engine.ts line 439) with its
highestRisk accumulator: a firing high indicator returns immediately, a
firing moderate indicator upgrades a low accumulator, a firing low
indicator changes nothing. -/
def assessRiskAux (rs : List TestResponse) : List RiskIndicator → RiskLevel → RiskLevel
  | [], acc => acc
  | ind :: rest, acc =>
    if indicatorFires rs ind then
      match ind.risk_level with
      | RiskLevel.high => RiskLevel.high
      | RiskLevel.moderate =>
        assessRiskAux rs rest (if acc = RiskLevel.low then RiskLevel.moderate else acc)
      | RiskLevel.low => assessRiskAux rs rest acc
    else assessRiskAux rs rest acc

/-- assessRisk (test-engine.ts line 439), starting from low. -/
def assessRisk (rs : List TestResponse) (indicators : List RiskIndicator) : RiskLevel :=
  assessRiskAux rs indicators RiskLevel.low

/-- calculateResults (test-engine.ts line 243): throws (none) when
isComplete is false; otherwise dispatches on the scoring type, then
overwrites risk_level with assessRisk and sets follow_up_suggested to
(risk high or normalized score < 50).  The only session mutation is the
skipped_questions push performed by the getVisibleQuestions call inside
isComplete, so the responses read below are those of the input session. -/
def calculateResults (evalCond : String → Option ℚ → Bool) (t : TestTemplate) (s : TestSession) : Option TestResults × TestSession :=
  let c := isComplete t s
  if c.1 = false then (none, c.2)
  else
    let base :=
      match t.scoring_rules.type with
      | ScoringType.simple_sum => calculateSimpleSum evalCond t.scoring_rules t.interpretation_guide t s.responses
      | ScoringType.weighted_sum => calculateWeightedSum evalCond t.scoring_rules t.interpretation_guide t s.responses
      | ScoringType.dimensional => calculateDimensionalScore evalCond t.scoring_rules t.interpretation_guide t s.responses
      | ScoringType.categorical => calculateCategoricalScore evalCond t.scoring_rules t.interpretation_guide t s.responses
    let risk := assessRisk s.responses t.interpretation_guide.risk_indicators
    (some
      { base with
        risk_level := risk
        follow_up_suggested := (risk = RiskLevel.high) || jsLt base.normalized_score (some 50) },
     c.2)

/-- One session step by answerQuestion (any candidate value) or
skipQuestion, the operations the claims describe as answers and
permitted skips; rejected operations leave the session at the returned
state as well. -/
inductive StepAS (t : TestTemplate) : TestSession → TestSession → Prop
  | answer (v : RValue) (ms : Option ℚ) (s : TestSession) : StepAS t s (answerQuestion t v ms s).2
  | skip (s : TestSession) : StepAS t s (skipQuestion t s).2

/-- Session states reachable from the constructor state by answers and
permitted skips. -/
def ReachableAS (t : TestTemplate) (s : TestSession) : Prop :=
  Relation.ReflTransGen (StepAS t) initialSession s

/-- Modelled from the spec wording of claim C1: max_possible is the sum
over all template questions of max_value times weight.  The source
(maxPossibleScore) sums max_value alone. -/
def specC1MaxPossible (t : TestTemplate) : ℚ :=
  t.questions.foldl (fun s q => s + q.max_value * q.weight) 0

/-- Modelled from the spec wording of claim C2: a conditional question is
visible only when its condition question has a recorded non-skipped
response satisfying the condition.  The source (shouldShowQuestion) does
not test the skipped flag. -/
def specC2ShouldShow (rs : List TestResponse) (q : TestQuestion) : Bool :=
  match q.show_if_question_id, q.show_if_value with
  | some cid, some cv =>
    if cid = 0 then true
    else rs.any (fun r => r.question_id = cid && r.skipped = false && evaluateBranchingCondition r.value cv)
  | _, _ => true

/-- Modelled from the spec wording of claim C2: the visible list under the
non-skipped reading of the condition. -/
def specC2VisibleList (t : TestTemplate) (rs : List TestResponse) : List TestQuestion :=
  if t.branching_enabled = false then sortByOrder t.questions
  else (sortByOrder t.questions).filter (fun q => specC2ShouldShow rs q)

/-- Modelled from the spec wording of claim C3: walk the question ids of
the indicator in order, each compared against the threshold aligned with
that question id position, falling back to the first threshold only when
the threshold list is too short.  The source aligns thresholds with
positions in the filtered response list instead. -/
def specC3IndicatorFires (rs : List TestResponse) (ind : RiskIndicator) : Bool :=
  ind.question_ids.enum.any (fun p =>
    match rs.find? (fun r => r.question_id = p.2 && r.skipped = false) with
    | none => false
    | some r =>
      jsGe (parseRV r.value)
        (match ind.threshold_values[p.1]? with
         | some x => some x
         | none => ind.threshold_values[0]?))

/-- Modelled from the spec wording of claim C3: high if any high indicator
fires, else moderate if any moderate indicator fires, else low. -/
def specC3AssessRisk (rs : List TestResponse) (inds : List RiskIndicator) : RiskLevel :=
  if inds.any (fun i => specC3IndicatorFires rs i && i.risk_level = RiskLevel.high) then RiskLevel.high
  else if inds.any (fun i => specC3IndicatorFires rs i && i.risk_level = RiskLevel.moderate) then RiskLevel.moderate
  else RiskLevel.low

/-- A default question for building concrete test fixtures. -/
def baseQ : TestQuestion :=
  { id := 0, order := 0, min_value := 0, max_value := 10, weight := 1
    dimension_pair := none, show_if_question_id := none, show_if_value := none
    question_type := QuestionType.likert, options := none
    reverse_scored := false, required := true }

/-- An interpretation guide with no ranges, rules or indicators. -/
def emptyGuide : InterpretationGuide :=
  { score_ranges := [], recommendations := [], risk_indicators := [] }

/-- A concrete condition evaluator (constantly false), standing in for
eval on templates without recommendation rules. -/
def evalFalse : String → Option ℚ → Bool := fun _ _ => false

/-- Fixture for C1: one question with max_value 4 and weight 2, scored by
simple_sum with percentage normalization. -/
def qC1 : TestQuestion := { baseQ with id := 1, max_value := 4, weight := 2 }

/-- Fixture template for C1. -/
def tC1 : TestTemplate :=
  { key := "c1", questions := [qC1]
    scoring_rules := { type := ScoringType.simple_sum, dimensions := [], normalization_method := some NormMethod.percentage }
    interpretation_guide := emptyGuide, branching_enabled := false }

/-- Fixture session for C1: the single question answered with 4. -/
def sC1 : TestSession :=
  { current_question := 1
    responses := [{ question_id := 1, value := RValue.num 4, response_time_ms := none, skipped := false }]
    branching_state := { active_conditions := [], skipped_questions := [], conditional_paths := [] } }

/-- Fixture for C2: an unconditional question. -/
def qA2 : TestQuestion := { baseQ with id := 1, required := false }

/-- Fixture for C2: a question shown when question 1 has value at least 0. -/
def qB2 : TestQuestion :=
  { baseQ with id := 2, order := 1, show_if_question_id := some 1, show_if_value := some 0, required := false }

/-- Fixture template for C2, branching enabled. -/
def tC2 : TestTemplate :=
  { key := "c2", questions := [qA2, qB2]
    scoring_rules := { type := ScoringType.simple_sum, dimensions := [], normalization_method := none }
    interpretation_guide := emptyGuide, branching_enabled := true }

/-- Fixture responses for C2: question 1 was skipped (value 0, skipped). -/
def rsC2 : List TestResponse :=
  [{ question_id := 1, value := RValue.num 0, response_time_ms := none, skipped := true }]

/-- Fixture indicator for C3: question ids [1, 2] with thresholds [5, 10]
at level high. -/
def indC3 : RiskIndicator :=
  { question_ids := [1, 2], threshold_values := [5, 10], risk_level := RiskLevel.high }

/-- Fixture responses for C3: only question 2 answered, with value 5. -/
def rsC3 : List TestResponse :=
  [{ question_id := 2, value := RValue.num 5, response_time_ms := none, skipped := false }]

/-- Fixture for C4: a single optional question. -/
def qC4 : TestQuestion := { baseQ with id := 1, required := false }

/-- Fixture template for C4. -/
def tC4 : TestTemplate :=
  { key := "c4", questions := [qC4]
    scoring_rules := { type := ScoringType.simple_sum, dimensions := [], normalization_method := none }
    interpretation_guide := emptyGuide, branching_enabled := true }

/-- Fixture for C5 and C7: a required unconditional question. -/
def qA5 : TestQuestion := { baseQ with id := 1 }

/-- Fixture for C5 and C7: a question shown only when question 1 scored at
least 5. -/
def qB5 : TestQuestion :=
  { baseQ with id := 2, order := 1, show_if_question_id := some 1, show_if_value := some 5, required := false }

/-- Fixture template for C5 and C7, branching enabled with a hidden
question. -/
def tC5 : TestTemplate :=
  { key := "c5", questions := [qA5, qB5]
    scoring_rules := { type := ScoringType.simple_sum, dimensions := [], normalization_method := some NormMethod.percentage }
    interpretation_guide := emptyGuide, branching_enabled := true }

/-- Fixture session for C5: question 1 answered 3, so question 2 stays
hidden and the attempt is complete. -/
def sC5 : TestSession :=
  { current_question := 1
    responses := [{ question_id := 1, value := RValue.num 3, response_time_ms := none, skipped := false }]
    branching_state := { active_conditions := [], skipped_questions := [], conditional_paths := [] } }

/-- Fixture for C6: a weight-0 question carrying dimension D. -/
def qC6 : TestQuestion := { baseQ with id := 1, weight := 0, dimension_pair := some "D" }

/-- Fixture template for C6, dimensional scoring over dimension D. -/
def tC6 : TestTemplate :=
  { key := "c6", questions := [qC6]
    scoring_rules := { type := ScoringType.dimensional, dimensions := ["D"], normalization_method := none }
    interpretation_guide := emptyGuide, branching_enabled := false }

/-- Fixture response for C6: a non-skipped answer to the weight-0 question
whose value is a string that does not parse (parseInt NaN). -/
def rC6 : TestResponse :=
  { question_id := 1, value := RValue.str none, response_time_ms := none, skipped := false }

/-- Fixture skipped response used by the C6 witness. -/
def rSkip : TestResponse :=
  { question_id := 5, value := RValue.num 3, response_time_ms := none, skipped := true }

/-- Fixture for C7: a choice question with three declared options and
numeric bounds [0, 10]. -/
def qC7 : TestQuestion :=
  { baseQ with id := 9, question_type := QuestionType.choice, options := some ["a", "b", "c"], required := false }

/-- Fixture template for C7: the single choice question, branching
disabled. -/
def tC7 : TestTemplate :=
  { key := "c7", questions := [qC7]
    scoring_rules := { type := ScoringType.simple_sum, dimensions := [], normalization_method := none }
    interpretation_guide := emptyGuide, branching_enabled := false }

/-- Fixture for C8: a question visible once question 3 scores at least 5. -/
def qa8 : TestQuestion := { baseQ with id := 1, show_if_question_id := some 3, show_if_value := some 5 }

/-- Fixture for C8: a second question visible once question 3 scores at
least 5. -/
def qb8 : TestQuestion := { baseQ with id := 2, order := 1, show_if_question_id := some 3, show_if_value := some 5 }

/-- Fixture for C8: the unconditional controlling question, last in order. -/
def qz8 : TestQuestion := { baseQ with id := 3, order := 2 }

/-- Fixture template for C8: two questions whose visibility depends on a
later-ordered question. -/
def tC8 : TestTemplate :=
  { key := "c8", questions := [qa8, qb8, qz8]
    scoring_rules := { type := ScoringType.simple_sum, dimensions := [], normalization_method := none }
    interpretation_guide := emptyGuide, branching_enabled := true }

/-- Fixture session for C8, reached by three answers: 5 to question 3
(then the current pointer sits past it on the freshly revealed list), 5
to question 2, and 7 to question 3 again (it is presented twice because
answering it shifted it rightward in the visible list). -/
def sC8 : TestSession :=
  (answerQuestion tC8 (RValue.num 7) none
    (answerQuestion tC8 (RValue.num 5) none
      (answerQuestion tC8 (RValue.num 5) none initialSession).2).2).2

/-- A placeholder TestResults value used only as the default of getD. -/
def defaultResults : TestResults :=
  { raw_score := none, normalized_score := none, dimension_scores := none
    interpretation := "", detailed_feedback := "", recommendations := []
    risk_level := RiskLevel.low, follow_up_suggested := false
    percentile_rank := none, comparison_group := none }

/-- The concrete results record of the C10 witness computation. -/
def resC10 : TestResults :=
  ((calculateResults evalFalse tC1 sC1).1).getD defaultResults


/-- Helper: adding a finite 0 on the right is the identity of jsAdd. -/
theorem jsAdd_some_zero (acc : Option ℚ) : jsAdd acc (some 0) = acc := by
  cases acc <;> simp [jsAdd]

/-- Helper: the session returned by getCurrentQuestion is the
getVisibleQuestions-mutated session, whichever branch is taken. -/
theorem getCurrentQuestion_snd (t : TestTemplate) (s : TestSession) :
    (getCurrentQuestion t s).2 =
      { s with branching_state :=
         { s.branching_state with
           skipped_questions := s.branching_state.skipped_questions ++ hiddenIds t s.responses } } := by
  simp only [getCurrentQuestion, getVisibleQuestions]
  split <;> rfl

/-- Helper: the session returned by calculateResults is the
isComplete-mutated session, whether or not the attempt was complete. -/
theorem calculateResults_snd (evalCond : String → Option ℚ → Bool) (t : TestTemplate) (s : TestSession) :
    (calculateResults evalCond t s).2 =
      { s with branching_state :=
         { s.branching_state with
           skipped_questions := s.branching_state.skipped_questions ++ hiddenIds t s.responses } } := by
  simp only [calculateResults, isComplete, getVisibleQuestions]
  split <;> rfl

/-- Helper: on a complete session, the results value returned by
calculateResults is the dispatched strategy record with risk level and
follow-up flag overwritten. -/
theorem calculateResults_fst (evalCond : String → Option ℚ → Bool) (t : TestTemplate) (s : TestSession)
    (hcomp : (isComplete t s).1 = true) :
    (calculateResults evalCond t s).1 =
      (let base :=
        match t.scoring_rules.type with
        | ScoringType.simple_sum => calculateSimpleSum evalCond t.scoring_rules t.interpretation_guide t s.responses
        | ScoringType.weighted_sum => calculateWeightedSum evalCond t.scoring_rules t.interpretation_guide t s.responses
        | ScoringType.dimensional => calculateDimensionalScore evalCond t.scoring_rules t.interpretation_guide t s.responses
        | ScoringType.categorical => calculateCategoricalScore evalCond t.scoring_rules t.interpretation_guide t s.responses
      let risk := assessRisk s.responses t.interpretation_guide.risk_indicators
      some { base with
             risk_level := risk
             follow_up_suggested := (risk = RiskLevel.high) || jsLt base.normalized_score (some 50) }) := by
  simp only [calculateResults, hcomp, Bool.true_eq_false, if_false]

/-- C1 counterexample: a template with one question of max_value 4 and
weight 2, answered at the maximum.  The code normalizes by the unweighted
sum of max_values and returns 200, while the claimed formula
raw / (sum of max_value * weight) * 100 gives 100. -/
theorem c1_counterexample :
    (calculateResults evalFalse tC1 sC1).1.map (fun res => res.raw_score) = some (some 8)
    ∧ (calculateResults evalFalse tC1 sC1).1.map (fun res => res.normalized_score) = some (some 200)
    ∧ (8 : ℚ) / specC1MaxPossible tC1 * 100 = 100
    ∧ (200 : ℚ) ≠ 100 := by
  refine ⟨?_, ?_, ?_, ?_⟩ <;> norm_num [calculateResults, isComplete, getVisibleQuestions, getCurrentQuestion, visibleList, hiddenIds, sortByOrder, shouldShowQuestion, evaluateBranchingCondition, answerQuestion, skipQuestion, previousQuestion, validateResponse, updateBranchingState, setKey, delKey, calculateSimpleSum, calculateWeightedSum, calculateDimensionalScore, calculateCategoricalScore, rawScoreSimple, simpleSumStep, maxPossibleScore, dimensionScore, dimensionStep, getInterpretation, getRecommendations, calculatePercentileRank, jsRound, jsMaxList, jsAdd, jsMul, jsDiv, jsGe, jsLe, jsLt, jsGt, jsEqNum, parseRV, assessRisk, assessRiskAux, indicatorFires, riskThreshold, specC1MaxPossible, specC2ShouldShow, specC2VisibleList, specC3IndicatorFires, specC3AssessRisk, initialSession, baseQ, emptyGuide, evalFalse, qC1, tC1, sC1, qA2, qB2, tC2, rsC2, indC3, rsC3, qC4, tC4, qA5, qB5, tC5, sC5, qC6, tC6, rC6, rSkip, qa8, qb8, qz8, tC8, sC8, defaultResults, resC10]

/-- C1 amended: for simple_sum or weighted_sum scoring with percentage
normalization, on a complete attempt whose raw score is a finite number r
and whose template has a nonzero sum of max_values, calculateResults
returns normalized score r / maxPossibleScore * 100, where
maxPossibleScore sums max_value over all template questions without
weights. -/
theorem c1_theorem (evalCond : String → Option ℚ → Bool) (t : TestTemplate) (s : TestSession) (r : ℚ)
    (htype : t.scoring_rules.type = ScoringType.simple_sum ∨ t.scoring_rules.type = ScoringType.weighted_sum)
    (hnorm : t.scoring_rules.normalization_method = some NormMethod.percentage)
    (hcomp : (isComplete t s).1 = true)
    (hraw : rawScoreSimple t s.responses = some r)
    (hmax : maxPossibleScore t ≠ 0) :
    ∃ res, (calculateResults evalCond t s).1 = some res ∧ res.raw_score = some r ∧
      res.normalized_score = some (r / maxPossibleScore t * 100) := by
  rw [calculateResults_fst evalCond t s hcomp]
  rcases htype with ht | ht <;> rw [ht] <;>
    exact ⟨_, rfl,
      by simp [calculateSimpleSum, calculateWeightedSum, hraw],
      by simp [calculateSimpleSum, calculateWeightedSum, hraw, hnorm, jsDiv, jsMul, hmax,
               div_mul_eq_mul_div, mul_comm]⟩

/-- C1 witness: the amended statement instantiated on the concrete C1
fixture, where the normalized score is 8 / 4 * 100 = 200. -/
theorem c1_witness :
    ∃ res, (calculateResults evalFalse tC1 sC1).1 = some res ∧ res.raw_score = some 8 ∧
      res.normalized_score = some (8 / maxPossibleScore tC1 * 100) :=
  c1_theorem evalFalse tC1 sC1 8 (Or.inl rfl) rfl
    (by norm_num [calculateResults, isComplete, getVisibleQuestions, getCurrentQuestion, visibleList, hiddenIds, sortByOrder, shouldShowQuestion, evaluateBranchingCondition, answerQuestion, skipQuestion, previousQuestion, validateResponse, updateBranchingState, setKey, delKey, calculateSimpleSum, calculateWeightedSum, calculateDimensionalScore, calculateCategoricalScore, rawScoreSimple, simpleSumStep, maxPossibleScore, dimensionScore, dimensionStep, getInterpretation, getRecommendations, calculatePercentileRank, jsRound, jsMaxList, jsAdd, jsMul, jsDiv, jsGe, jsLe, jsLt, jsGt, jsEqNum, parseRV, assessRisk, assessRiskAux, indicatorFires, riskThreshold, specC1MaxPossible, specC2ShouldShow, specC2VisibleList, specC3IndicatorFires, specC3AssessRisk, initialSession, baseQ, emptyGuide, evalFalse, qC1, tC1, sC1, qA2, qB2, tC2, rsC2, indC3, rsC3, qC4, tC4, qA5, qB5, tC5, sC5, qC6, tC6, rC6, rSkip, qa8, qb8, qz8, tC8, sC8, defaultResults, resC10])
    (by norm_num [calculateResults, isComplete, getVisibleQuestions, getCurrentQuestion, visibleList, hiddenIds, sortByOrder, shouldShowQuestion, evaluateBranchingCondition, answerQuestion, skipQuestion, previousQuestion, validateResponse, updateBranchingState, setKey, delKey, calculateSimpleSum, calculateWeightedSum, calculateDimensionalScore, calculateCategoricalScore, rawScoreSimple, simpleSumStep, maxPossibleScore, dimensionScore, dimensionStep, getInterpretation, getRecommendations, calculatePercentileRank, jsRound, jsMaxList, jsAdd, jsMul, jsDiv, jsGe, jsLe, jsLt, jsGt, jsEqNum, parseRV, assessRisk, assessRiskAux, indicatorFires, riskThreshold, specC1MaxPossible, specC2ShouldShow, specC2VisibleList, specC3IndicatorFires, specC3AssessRisk, initialSession, baseQ, emptyGuide, evalFalse, qC1, tC1, sC1, qA2, qB2, tC2, rsC2, indC3, rsC3, qC4, tC4, qA5, qB5, tC5, sC5, qC6, tC6, rC6, rSkip, qa8, qb8, qz8, tC8, sC8, defaultResults, resC10])
    (by norm_num [calculateResults, isComplete, getVisibleQuestions, getCurrentQuestion, visibleList, hiddenIds, sortByOrder, shouldShowQuestion, evaluateBranchingCondition, answerQuestion, skipQuestion, previousQuestion, validateResponse, updateBranchingState, setKey, delKey, calculateSimpleSum, calculateWeightedSum, calculateDimensionalScore, calculateCategoricalScore, rawScoreSimple, simpleSumStep, maxPossibleScore, dimensionScore, dimensionStep, getInterpretation, getRecommendations, calculatePercentileRank, jsRound, jsMaxList, jsAdd, jsMul, jsDiv, jsGe, jsLe, jsLt, jsGt, jsEqNum, parseRV, assessRisk, assessRiskAux, indicatorFires, riskThreshold, specC1MaxPossible, specC2ShouldShow, specC2VisibleList, specC3IndicatorFires, specC3AssessRisk, initialSession, baseQ, emptyGuide, evalFalse, qC1, tC1, sC1, qA2, qB2, tC2, rsC2, indC3, rsC3, qC4, tC4, qA5, qB5, tC5, sC5, qC6, tC6, rC6, rSkip, qa8, qb8, qz8, tC8, sC8, defaultResults, resC10])

/-- Helper: getCurrentQuestion returns none exactly when the pointer has
reached the length of the visible list. -/
theorem getCurrentQuestion_none_iff (t : TestTemplate) (s : TestSession) :
    (getCurrentQuestion t s).1 = none ↔ (visibleList t s.responses).length ≤ s.current_question := by
  simp only [getCurrentQuestion, getVisibleQuestions]
  by_cases h : (visibleList t s.responses).length ≤ s.current_question
  · simp [h]
  · have hlt : s.current_question < (visibleList t s.responses).length := lt_of_not_le h
    simp [h, List.getElem?_eq_getElem hlt]

/-- Helper: a returned current question means the pointer is strictly
inside the visible list. -/
theorem getCurrentQuestion_some_lt (t : TestTemplate) (s : TestSession) (q : TestQuestion)
    (h : (getCurrentQuestion t s).1 = some q) :
    s.current_question < (visibleList t s.responses).length := by
  by_contra hc
  have h2 := (getCurrentQuestion_none_iff t s).2 (le_of_not_lt hc)
  rw [h] at h2
  exact Option.noConfusion h2

/-- C4 counterexample: a branching template whose only question is
optional.  At the (trivially reachable) initial session, isComplete is
already true while getCurrentQuestion still returns that question (not
none), so the claimed equivalence fails. -/
theorem c4_counterexample :
    ReachableAS tC4 initialSession
    ∧ (isComplete tC4 initialSession).1 = true
    ∧ (getCurrentQuestion tC4 initialSession).1 = some qC4 :=
  ⟨Relation.ReflTransGen.refl, by norm_num [calculateResults, isComplete, getVisibleQuestions, getCurrentQuestion, visibleList, hiddenIds, sortByOrder, shouldShowQuestion, evaluateBranchingCondition, answerQuestion, skipQuestion, previousQuestion, validateResponse, updateBranchingState, setKey, delKey, calculateSimpleSum, calculateWeightedSum, calculateDimensionalScore, calculateCategoricalScore, rawScoreSimple, simpleSumStep, maxPossibleScore, dimensionScore, dimensionStep, getInterpretation, getRecommendations, calculatePercentileRank, jsRound, jsMaxList, jsAdd, jsMul, jsDiv, jsGe, jsLe, jsLt, jsGt, jsEqNum, parseRV, assessRisk, assessRiskAux, indicatorFires, riskThreshold, specC1MaxPossible, specC2ShouldShow, specC2VisibleList, specC3IndicatorFires, specC3AssessRisk, initialSession, baseQ, emptyGuide, evalFalse, qC1, tC1, sC1, qA2, qB2, tC2, rsC2, indC3, rsC3, qC4, tC4, qA5, qB5, tC5, sC5, qC6, tC6, rC6, rSkip, qa8, qb8, qz8, tC8, sC8, defaultResults, resC10], by norm_num [calculateResults, isComplete, getVisibleQuestions, getCurrentQuestion, visibleList, hiddenIds, sortByOrder, shouldShowQuestion, evaluateBranchingCondition, answerQuestion, skipQuestion, previousQuestion, validateResponse, updateBranchingState, setKey, delKey, calculateSimpleSum, calculateWeightedSum, calculateDimensionalScore, calculateCategoricalScore, rawScoreSimple, simpleSumStep, maxPossibleScore, dimensionScore, dimensionStep, getInterpretation, getRecommendations, calculatePercentileRank, jsRound, jsMaxList, jsAdd, jsMul, jsDiv, jsGe, jsLe, jsLt, jsGt, jsEqNum, parseRV, assessRisk, assessRiskAux, indicatorFires, riskThreshold, specC1MaxPossible, specC2ShouldShow, specC2VisibleList, specC3IndicatorFires, specC3AssessRisk, initialSession, baseQ, emptyGuide, evalFalse, qC1, tC1, sC1, qA2, qB2, tC2, rsC2, indC3, rsC3, qC4, tC4, qA5, qB5, tC5, sC5, qC6, tC6, rC6, rSkip, qa8, qb8, qz8, tC8, sC8, defaultResults, resC10]⟩

/-- C4 amended: for every session, getCurrentQuestion returns none exactly
when current_question has reached the length of the visible-question
list; equivalence with isComplete does not hold (isComplete counts
non-skipped responses to required visible questions instead). -/
theorem c4_theorem (t : TestTemplate) (s : TestSession) :
    (getCurrentQuestion t s).1 = none ↔ (visibleList t s.responses).length ≤ s.current_question :=
  getCurrentQuestion_none_iff t s

/-- C10: whenever calculateResults returns a results record, its
follow_up_suggested flag is set exactly when the assessed risk level is
high or the normalized score is strictly below 50 (a NaN score counts as
not below 50). -/
theorem c10_theorem (evalCond : String → Option ℚ → Bool) (t : TestTemplate) (s : TestSession) (res : TestResults)
    (h : (calculateResults evalCond t s).1 = some res) :
    (res.follow_up_suggested = true
      ↔ (res.risk_level = RiskLevel.high ∨ jsLt res.normalized_score (some 50) = true)) := by
  by_cases hcomp : (isComplete t s).1 = true
  · rw [calculateResults_fst evalCond t s hcomp] at h
    dsimp only at h
    rw [Option.some.injEq] at h
    subst h
    simp [Bool.or_eq_true, decide_eq_true_iff]
  · have hcomp2 : (isComplete t s).1 = false := by
      cases hcv : (isComplete t s).1
      · rfl
      · exact absurd hcv hcomp
    simp [calculateResults, hcomp2] at h

/-- C10 witness: the flag equivalence evaluated on the concrete C1
fixture results record. -/
theorem c10_witness :
    (resC10.follow_up_suggested = true
      ↔ (resC10.risk_level = RiskLevel.high ∨ jsLt resC10.normalized_score (some 50) = true)) :=
  c10_theorem evalFalse tC1 sC1 resC10 (by norm_num [calculateResults, isComplete, getVisibleQuestions, getCurrentQuestion, visibleList, hiddenIds, sortByOrder, shouldShowQuestion, evaluateBranchingCondition, answerQuestion, skipQuestion, previousQuestion, validateResponse, updateBranchingState, setKey, delKey, calculateSimpleSum, calculateWeightedSum, calculateDimensionalScore, calculateCategoricalScore, rawScoreSimple, simpleSumStep, maxPossibleScore, dimensionScore, dimensionStep, getInterpretation, getRecommendations, calculatePercentileRank, jsRound, jsMaxList, jsAdd, jsMul, jsDiv, jsGe, jsLe, jsLt, jsGt, jsEqNum, parseRV, assessRisk, assessRiskAux, indicatorFires, riskThreshold, specC1MaxPossible, specC2ShouldShow, specC2VisibleList, specC3IndicatorFires, specC3AssessRisk, initialSession, baseQ, emptyGuide, evalFalse, qC1, tC1, sC1, qA2, qB2, tC2, rsC2, indC3, rsC3, qC4, tC4, qA5, qB5, tC5, sC5, qC6, tC6, rC6, rSkip, qa8, qb8, qz8, tC8, sC8, defaultResults, resC10])

/-- C5 counterexample: on a complete branching session with a hidden
question, calculateResults succeeds but pushes the hidden question id
onto branching_state.skipped_questions, so the session state is not left
unchanged. -/
theorem c5_counterexample :
    ((calculateResults evalFalse tC5 sC5).1).isSome = true
    ∧ ((calculateResults evalFalse tC5 sC5).2).branching_state.skipped_questions = [2]
    ∧ sC5.branching_state.skipped_questions = [] := by
  refine ⟨?_, ?_, ?_⟩ <;> norm_num [calculateResults, isComplete, getVisibleQuestions, getCurrentQuestion, visibleList, hiddenIds, sortByOrder, shouldShowQuestion, evaluateBranchingCondition, answerQuestion, skipQuestion, previousQuestion, validateResponse, updateBranchingState, setKey, delKey, calculateSimpleSum, calculateWeightedSum, calculateDimensionalScore, calculateCategoricalScore, rawScoreSimple, simpleSumStep, maxPossibleScore, dimensionScore, dimensionStep, getInterpretation, getRecommendations, calculatePercentileRank, jsRound, jsMaxList, jsAdd, jsMul, jsDiv, jsGe, jsLe, jsLt, jsGt, jsEqNum, parseRV, assessRisk, assessRiskAux, indicatorFires, riskThreshold, specC1MaxPossible, specC2ShouldShow, specC2VisibleList, specC3IndicatorFires, specC3AssessRisk, initialSession, baseQ, emptyGuide, evalFalse, qC1, tC1, sC1, qA2, qB2, tC2, rsC2, indC3, rsC3, qC4, tC4, qA5, qB5, tC5, sC5, qC6, tC6, rC6, rSkip, qa8, qb8, qz8, tC8, sC8, defaultResults, resC10]

/-- C5 amended: relative to the purity assumption on condition
evaluation made explicit by quantifying over the evaluator - the source
runs direct eval on template-supplied condition strings, which
guarantees no such purity (see getRecommendations and C9), and absent
the assumption no determinism or bounded-mutation property of
calculateResults holds on the program - calculateResults is
deterministic (a second call on the returned session yields the same
results value) and leaves responses, current_question, active_conditions
and conditional_paths unchanged, while each call appends the ids of
currently hidden questions to branching_state.skipped_questions. -/
theorem c5_theorem (evalCond : String → Option ℚ → Bool) (t : TestTemplate) (s : TestSession) :
    (calculateResults evalCond t (calculateResults evalCond t s).2).1 = (calculateResults evalCond t s).1
    ∧ (calculateResults evalCond t s).2.responses = s.responses
    ∧ (calculateResults evalCond t s).2.current_question = s.current_question
    ∧ (calculateResults evalCond t s).2.branching_state.active_conditions = s.branching_state.active_conditions
    ∧ (calculateResults evalCond t s).2.branching_state.conditional_paths = s.branching_state.conditional_paths
    ∧ (calculateResults evalCond t s).2.branching_state.skipped_questions
        = s.branching_state.skipped_questions ++ hiddenIds t s.responses := by
  refine ⟨?_, ?_, ?_, ?_, ?_, ?_⟩
  · rw [calculateResults_snd]
    simp only [calculateResults, isComplete, getVisibleQuestions, apply_ite Prod.fst]
  all_goals rw [calculateResults_snd]

/-- C7 counterexample: two failures of the claim.  An invalid numeric
answer (99 against bounds [0, 10]) on a branching template with a hidden
question signals the error but still appends the hidden question id to
branching_state.skipped_questions, so the session is not left entirely
unchanged.  And a choice question with three options answered with the
numeric index 5 (within its bounds [0, 10]) is accepted outright -
outcome ok, response recorded, pointer advanced, no error - because
validateResponse checks option bounds only for string answers. -/
theorem c7_counterexample :
    (answerQuestion tC5 (RValue.num 99) none initialSession).1 = AnswerOutcome.invalid
    ∧ (answerQuestion tC5 (RValue.num 99) none initialSession).2.branching_state.skipped_questions = [2]
    ∧ initialSession.branching_state.skipped_questions = []
    ∧ qC7.question_type = QuestionType.choice
    ∧ qC7.options = some ["a", "b", "c"]
    ∧ (answerQuestion tC7 (RValue.num 5) none initialSession).1 = AnswerOutcome.ok
    ∧ (answerQuestion tC7 (RValue.num 5) none initialSession).2.responses
        = [{ question_id := 9, value := RValue.num 5, response_time_ms := none, skipped := false }]
    ∧ (answerQuestion tC7 (RValue.num 5) none initialSession).2.current_question = 1 := by
  refine ⟨?_, ?_, ?_, ?_, ?_, ?_, ?_, ?_⟩ <;> norm_num [calculateResults, isComplete, getVisibleQuestions, getCurrentQuestion, visibleList, hiddenIds, sortByOrder, shouldShowQuestion, evaluateBranchingCondition, answerQuestion, skipQuestion, previousQuestion, validateResponse, updateBranchingState, setKey, delKey, calculateSimpleSum, calculateWeightedSum, calculateDimensionalScore, calculateCategoricalScore, rawScoreSimple, simpleSumStep, maxPossibleScore, dimensionScore, dimensionStep, getInterpretation, getRecommendations, calculatePercentileRank, jsRound, jsMaxList, jsAdd, jsMul, jsDiv, jsGe, jsLe, jsLt, jsGt, jsEqNum, parseRV, assessRisk, assessRiskAux, indicatorFires, riskThreshold, specC1MaxPossible, specC2ShouldShow, specC2VisibleList, specC3IndicatorFires, specC3AssessRisk, initialSession, baseQ, emptyGuide, evalFalse, qC1, tC1, sC1, qA2, qB2, tC2, rsC2, indC3, rsC3, qC4, tC4, qA5, qB5, tC5, sC5, qC6, tC6, rC6, rSkip, qC7, tC7, qa8, qb8, qz8, tC8, sC8, defaultResults, resC10, dedupFirst]

/-- C7 amended: a rejection by validateResponse makes answerQuestion
signal the invalid-response error and leave responses, current_question,
active_conditions and conditional_paths unchanged, only
branching_state.skipped_questions being extended by the hidden question
ids pushed during the getCurrentQuestion lookup; and validateResponse
rejects exactly a numeric value outside [min_value, max_value] or, for a
choice question with a declared option list, a string value that does
not parse to an in-bounds index - a choice index supplied as a number is
never checked against the option list and is accepted whenever it lies
within [min_value, max_value]. -/
theorem c7_theorem (t : TestTemplate) (s : TestSession) (v : RValue) (ms : Option ℚ) (q : TestQuestion)
    (hq : (getCurrentQuestion t s).1 = some q) :
    (validateResponse q v = false →
      answerQuestion t v ms s =
        (AnswerOutcome.invalid,
         { s with branching_state :=
            { s.branching_state with
              skipped_questions := s.branching_state.skipped_questions ++ hiddenIds t s.responses } }))
    ∧ (validateResponse q v = false ↔
        ((∃ x, v = RValue.num x ∧ ¬(q.min_value ≤ x ∧ x ≤ q.max_value)) ∨
         (∃ p, v = RValue.str p
            ∧ (q.question_type = QuestionType.choice ∧ q.options.isSome = true)
            ∧ ¬ ∃ idx, p = some idx ∧ 0 ≤ idx ∧ idx < ((q.options.getD []).length : ℤ)))) := by
  constructor
  · intro hv
    simp [answerQuestion, hq, hv, getCurrentQuestion_snd]
  · unfold validateResponse
    rcases v with x | p
    · simp [Bool.and_eq_false_iff, decide_eq_false_iff_not, not_and_or]
    · by_cases hc : q.question_type = QuestionType.choice ∧ q.options.isSome = true
      · rcases p with _ | idx
        · simp [hc]
        · simp [hc, Bool.and_eq_false_iff, decide_eq_false_iff_not, not_and_or]
      · simp [hc]

/-- C7 witness: the error branch of the amended statement on the concrete
fixture: answering 99 against bounds [0, 10]. -/
theorem c7_witness :
    answerQuestion tC5 (RValue.num 99) none initialSession =
      (AnswerOutcome.invalid,
       { initialSession with branching_state :=
          { initialSession.branching_state with
            skipped_questions :=
              initialSession.branching_state.skipped_questions ++ hiddenIds tC5 initialSession.responses } }) :=
  (c7_theorem tC5 initialSession (RValue.num 99) none qA5 (by norm_num [calculateResults, isComplete, getVisibleQuestions, getCurrentQuestion, visibleList, hiddenIds, sortByOrder, shouldShowQuestion, evaluateBranchingCondition, answerQuestion, skipQuestion, previousQuestion, validateResponse, updateBranchingState, setKey, delKey, calculateSimpleSum, calculateWeightedSum, calculateDimensionalScore, calculateCategoricalScore, rawScoreSimple, simpleSumStep, maxPossibleScore, dimensionScore, dimensionStep, getInterpretation, getRecommendations, calculatePercentileRank, jsRound, jsMaxList, jsAdd, jsMul, jsDiv, jsGe, jsLe, jsLt, jsGt, jsEqNum, parseRV, assessRisk, assessRiskAux, indicatorFires, riskThreshold, specC1MaxPossible, specC2ShouldShow, specC2VisibleList, specC3IndicatorFires, specC3AssessRisk, initialSession, baseQ, emptyGuide, evalFalse, qC1, tC1, sC1, qA2, qB2, tC2, rsC2, indC3, rsC3, qC4, tC4, qA5, qB5, tC5, sC5, qC6, tC6, rC6, rSkip, qC7, tC7, qa8, qb8, qz8, tC8, sC8, defaultResults, resC10, dedupFirst])).1 (by norm_num [calculateResults, isComplete, getVisibleQuestions, getCurrentQuestion, visibleList, hiddenIds, sortByOrder, shouldShowQuestion, evaluateBranchingCondition, answerQuestion, skipQuestion, previousQuestion, validateResponse, updateBranchingState, setKey, delKey, calculateSimpleSum, calculateWeightedSum, calculateDimensionalScore, calculateCategoricalScore, rawScoreSimple, simpleSumStep, maxPossibleScore, dimensionScore, dimensionStep, getInterpretation, getRecommendations, calculatePercentileRank, jsRound, jsMaxList, jsAdd, jsMul, jsDiv, jsGe, jsLe, jsLt, jsGt, jsEqNum, parseRV, assessRisk, assessRiskAux, indicatorFires, riskThreshold, specC1MaxPossible, specC2ShouldShow, specC2VisibleList, specC3IndicatorFires, specC3AssessRisk, initialSession, baseQ, emptyGuide, evalFalse, qC1, tC1, sC1, qA2, qB2, tC2, rsC2, indC3, rsC3, qC4, tC4, qA5, qB5, tC5, sC5, qC6, tC6, rC6, rSkip, qC7, tC7, qa8, qb8, qz8, tC8, sC8, defaultResults, resC10, dedupFirst])

/-- Helper: a skipped response, or a response to a weight-0 question,
leaves the simple-sum accumulator unchanged. -/
theorem simpleSumStep_id (t : TestTemplate) (r : TestResponse) (acc : Option ℚ)
    (h : r.skipped = true ∨ ∃ q, t.questions.find? (fun q2 => q2.id = r.question_id) = some q ∧ q.weight = 0) :
    simpleSumStep t acc r = acc := by
  unfold simpleSumStep
  rcases h with h | ⟨q, hq, hw⟩
  · simp [h]
  · by_cases hs : r.skipped
    · simp [hs]
    · simp [hs, hq, hw]

/-- Helper: a skipped response, or a response to a weight-0 question whose
value parses to a number, leaves a dimension accumulator unchanged. -/
theorem dimensionStep_id (t : TestTemplate) (d : String) (r : TestResponse) (acc : Option ℚ)
    (h : r.skipped = true ∨ ∃ q, t.questions.find? (fun q2 => q2.id = r.question_id) = some q ∧ q.weight = 0)
    (hv : r.skipped = true ∨ parseRV r.value ≠ none) :
    dimensionStep t d acc r = acc := by
  unfold dimensionStep
  rcases h with h | ⟨q, hq, hw⟩
  · simp [h]
  · by_cases hs : r.skipped
    · simp [hs]
    · rcases hv with hv | hv
      · exact absurd hv hs
      · obtain ⟨x, hx⟩ := Option.ne_none_iff_exists.1 hv
        simp only [hs, if_false, hq, hw]
        rcases hdp : q.dimension_pair with _ | dim
        · rfl
        · by_cases hde : dim = ""
          · simp [hde]
          · by_cases hdd : dim = d
            · simp only [hde, if_false, hdd, if_true, Bool.false_eq_true]
              rcases hrev : q.reverse_scored <;>
                simp [← hx, jsMul, mul_comm, jsAdd_some_zero]
            · simp [hde, hdd]

set_option maxHeartbeats 1000000 in
/-- C6 counterexample: under dimensional scoring, a non-skipped response
to a weight-0 question whose value is an unparseable string contributes
NaN times 0 = NaN, so removing it changes the dimension score (NaN
versus 0) and the overall raw score. -/
theorem c6_counterexample :
    rC6.skipped = false
    ∧ tC6.questions.find? (fun q2 => q2.id = rC6.question_id) = some qC6
    ∧ qC6.weight = 0
    ∧ dimensionScore tC6 [rC6] "D" = none
    ∧ dimensionScore tC6 [] "D" = some 0
    ∧ (calculateDimensionalScore evalFalse tC6.scoring_rules tC6.interpretation_guide tC6 [rC6]).raw_score = none
    ∧ (calculateDimensionalScore evalFalse tC6.scoring_rules tC6.interpretation_guide tC6 []).raw_score = some 0 := by
  refine ⟨?_, ?_, ?_, ?_, ?_, ?_, ?_⟩ <;>
    norm_num [calculateResults, isComplete, getVisibleQuestions, getCurrentQuestion, visibleList, hiddenIds, sortByOrder, shouldShowQuestion, evaluateBranchingCondition, answerQuestion, skipQuestion, previousQuestion, validateResponse, updateBranchingState, setKey, delKey, calculateSimpleSum, calculateWeightedSum, calculateDimensionalScore, calculateCategoricalScore, rawScoreSimple, simpleSumStep, maxPossibleScore, dimensionScore, dimensionStep, getInterpretation, getRecommendations, calculatePercentileRank, jsRound, jsMaxList, jsAdd, jsMul, jsDiv, jsGe, jsLe, jsLt, jsGt, jsEqNum, parseRV, assessRisk, assessRiskAux, indicatorFires, riskThreshold, specC1MaxPossible, specC2ShouldShow, specC2VisibleList, specC3IndicatorFires, specC3AssessRisk, initialSession, baseQ, emptyGuide, evalFalse, qC1, tC1, sC1, qA2, qB2, tC2, rsC2, indC3, rsC3, qC4, tC4, qA5, qB5, tC5, sC5, qC6, tC6, rC6, rSkip, qa8, qb8, qz8, tC8, sC8, defaultResults, resC10, dedupFirst, dedupFirst, (by decide : ("D" : String) ≠ "")]

/-- C6 amended: removing a skipped response or a response to a weight-0
question never changes the simple-sum raw score (the weight-0 guard
precedes any use of the value, so this holds even for unparseable string
values); and it changes no dimension score provided the response is
skipped or its value parses to a number (weighted_sum and categorical
scoring reuse these computations). -/
theorem c6_theorem (t : TestTemplate) (l1 l2 : List TestResponse) (r : TestResponse)
    (h : r.skipped = true ∨ ∃ q, t.questions.find? (fun q2 => q2.id = r.question_id) = some q ∧ q.weight = 0) :
    rawScoreSimple t (l1 ++ r :: l2) = rawScoreSimple t (l1 ++ l2)
    ∧ ((r.skipped = true ∨ parseRV r.value ≠ none) →
        ∀ d, dimensionScore t (l1 ++ r :: l2) d = dimensionScore t (l1 ++ l2) d) := by
  constructor
  · unfold rawScoreSimple
    rw [List.foldl_append, List.foldl_append, List.foldl_cons, simpleSumStep_id t r _ h]
  · intro hv d
    unfold dimensionScore
    rw [List.foldl_append, List.foldl_append, List.foldl_cons, dimensionStep_id t d r _ h hv]

/-- C6 witness: removing a concrete skipped response leaves the simple-sum
raw score unchanged. -/
theorem c6_witness :
    rawScoreSimple tC1 ([] ++ rSkip :: []) = rawScoreSimple tC1 ([] ++ []) :=
  (c6_theorem tC1 [] [] rSkip (Or.inl rfl)).1

/-- Helper: the assessRisk accumulator loop equals its declarative
description: high if any remaining indicator fires at level high,
otherwise moderate if the accumulator is already moderate or any
remaining indicator fires at level moderate, otherwise the accumulator. -/
theorem assessRiskAux_eq (rs : List TestResponse) (inds : List RiskIndicator) :
    ∀ acc : RiskLevel,
      assessRiskAux rs inds acc =
        if inds.any (fun i => indicatorFires rs i && i.risk_level = RiskLevel.high) then RiskLevel.high
        else if acc = RiskLevel.high then RiskLevel.high
        else if (acc = RiskLevel.moderate) ∨ inds.any (fun i => indicatorFires rs i && i.risk_level = RiskLevel.moderate) then RiskLevel.moderate
        else acc := by
  induction inds with
  | nil => intro acc; cases acc <;> simp [assessRiskAux]
  | cons ind rest ih =>
    intro acc
    by_cases hf : indicatorFires rs ind
    · rcases hl : ind.risk_level
      · rw [show assessRiskAux rs (ind :: rest) acc = assessRiskAux rs rest acc by
              simp [assessRiskAux, hf, hl]]
        rw [ih acc]
        cases acc <;> simp [List.any_cons, hf, hl]
      · rw [show assessRiskAux rs (ind :: rest) acc
              = assessRiskAux rs rest (if acc = RiskLevel.low then RiskLevel.moderate else acc) by
              simp [assessRiskAux, hf, hl]]
        rw [ih]
        cases acc <;> simp [List.any_cons, hf, hl]
      · rw [show assessRiskAux rs (ind :: rest) acc = RiskLevel.high by
              simp [assessRiskAux, hf, hl]]
        cases acc <;> simp [List.any_cons, hf, hl]
    · rw [show assessRiskAux rs (ind :: rest) acc = assessRiskAux rs rest acc by
            simp [assessRiskAux, hf]]
      rw [ih acc]
      cases acc <;> simp [List.any_cons, hf]

/-- C3 counterexample: an indicator over question ids [1, 2] with
thresholds [5, 10] at level high, and a single response answering
question 2 with 5.  The code aligns threshold 5 (index 0 of the filtered
response list) with that response and fires, returning high; the claimed
question-id alignment would require 10 and not fire, returning low. -/
theorem c3_counterexample :
    assessRisk rsC3 [indC3] = RiskLevel.high
    ∧ specC3AssessRisk rsC3 [indC3] = RiskLevel.low
    ∧ RiskLevel.high ≠ RiskLevel.low := by
  refine ⟨?_, ?_, by decide⟩ <;> norm_num [calculateResults, isComplete, getVisibleQuestions, getCurrentQuestion, visibleList, hiddenIds, sortByOrder, shouldShowQuestion, evaluateBranchingCondition, answerQuestion, skipQuestion, previousQuestion, validateResponse, updateBranchingState, setKey, delKey, calculateSimpleSum, calculateWeightedSum, calculateDimensionalScore, calculateCategoricalScore, rawScoreSimple, simpleSumStep, maxPossibleScore, dimensionScore, dimensionStep, getInterpretation, getRecommendations, calculatePercentileRank, jsRound, jsMaxList, jsAdd, jsMul, jsDiv, jsGe, jsLe, jsLt, jsGt, jsEqNum, parseRV, assessRisk, assessRiskAux, indicatorFires, riskThreshold, specC1MaxPossible, specC2ShouldShow, specC2VisibleList, specC3IndicatorFires, specC3AssessRisk, initialSession, baseQ, emptyGuide, evalFalse, qC1, tC1, sC1, qA2, qB2, tC2, rsC2, indC3, rsC3, qC4, tC4, qA5, qB5, tC5, sC5, qC6, tC6, rC6, rSkip, qa8, qb8, qz8, tC8, sC8, defaultResults, resC10, dedupFirst, List.enum, List.enumFrom]

/-- C3 amended: assessRisk returns high exactly when some indicator fires
at level high, otherwise moderate when some indicator fires at level
moderate, otherwise low - where an indicator fires when the i-th
non-skipped response to its questions (in response-list order) meets the
i-th threshold, a zero or missing threshold falling back to the first
one.  Firing high indicators dominate regardless of the other
indicators. -/
theorem c3_theorem (rs : List TestResponse) (inds : List RiskIndicator) :
    assessRisk rs inds =
      (if inds.any (fun i => indicatorFires rs i && i.risk_level = RiskLevel.high) then RiskLevel.high
       else if inds.any (fun i => indicatorFires rs i && i.risk_level = RiskLevel.moderate) then RiskLevel.moderate
       else RiskLevel.low) := by
  unfold assessRisk
  rw [assessRiskAux_eq]
  simp

/-- Helper: shouldShowQuestion in declarative form - true exactly when
there is no effective condition (missing or zero condition id, or
missing threshold), or the first recorded response to the condition
question satisfies the condition evaluator. -/
theorem shouldShow_iff (rs : List TestResponse) (q : TestQuestion) :
    shouldShowQuestion rs q = true ↔
      ((¬ ∃ cid cv, q.show_if_question_id = some cid ∧ q.show_if_value = some cv ∧ cid ≠ 0) ∨
       (∃ cid cv r2, q.show_if_question_id = some cid ∧ cid ≠ 0 ∧ q.show_if_value = some cv ∧
         rs.find? (fun r3 => r3.question_id = cid) = some r2 ∧ evaluateBranchingCondition r2.value cv = true)) := by
  unfold shouldShowQuestion
  rcases hid : q.show_if_question_id with _ | cid
  · simp [hid]
  · rcases hvv : q.show_if_value with _ | cv
    · simp [hid, hvv]
    · by_cases hz : cid = 0
      · subst hz
        simp [hid, hvv]
      · rcases hf : rs.find? (fun r3 => r3.question_id = cid) with _ | r2
        · simp [hid, hvv, hz, hf]
        · simp [hid, hvv, hz, hf]

/-- C2 counterexample: question 2 is conditioned on question 1 with
threshold 0, and the only recorded response to question 1 is a skip
(value 0, skipped = true).  The code still shows question 2 (the skipped
flag is not consulted and 0 >= 0), while the claimed non-skipped reading
hides it. -/
theorem c2_counterexample :
    (visibleList tC2 rsC2).map (fun q => q.id) = [1, 2]
    ∧ (specC2VisibleList tC2 rsC2).map (fun q => q.id) = [1]
    ∧ rsC2.all (fun r => r.skipped) = true := by
  refine ⟨?_, ?_, ?_⟩ <;> norm_num [calculateResults, isComplete, getVisibleQuestions, getCurrentQuestion, visibleList, hiddenIds, sortByOrder, shouldShowQuestion, evaluateBranchingCondition, answerQuestion, skipQuestion, previousQuestion, validateResponse, updateBranchingState, setKey, delKey, calculateSimpleSum, calculateWeightedSum, calculateDimensionalScore, calculateCategoricalScore, rawScoreSimple, simpleSumStep, maxPossibleScore, dimensionScore, dimensionStep, getInterpretation, getRecommendations, calculatePercentileRank, jsRound, jsMaxList, jsAdd, jsMul, jsDiv, jsGe, jsLe, jsLt, jsGt, jsEqNum, parseRV, assessRisk, assessRiskAux, indicatorFires, riskThreshold, specC1MaxPossible, specC2ShouldShow, specC2VisibleList, specC3IndicatorFires, specC3AssessRisk, initialSession, baseQ, emptyGuide, evalFalse, qC1, tC1, sC1, qA2, qB2, tC2, rsC2, indC3, rsC3, qC4, tC4, qA5, qB5, tC5, sC5, qC6, tC6, rC6, rSkip, qa8, qb8, qz8, tC8, sC8, defaultResults, resC10, dedupFirst]

/-- C2 amended: with branching enabled, a question is in the visible list
iff it is a template question and either carries no effective branching
condition (missing or zero condition-question id, or missing condition
value) or the first recorded response to its condition question -
skipped or not - satisfies the condition evaluator; the visible list is
sorted by the order field and is a sublist of the order-sorted question
list. -/
theorem c2_theorem (t : TestTemplate) (rs : List TestResponse) (hb : t.branching_enabled = true) :
    (∀ q : TestQuestion, q ∈ visibleList t rs ↔ q ∈ t.questions ∧
       ((¬ ∃ cid cv, q.show_if_question_id = some cid ∧ q.show_if_value = some cv ∧ cid ≠ 0) ∨
        (∃ cid cv r2, q.show_if_question_id = some cid ∧ cid ≠ 0 ∧ q.show_if_value = some cv ∧
          rs.find? (fun r3 => r3.question_id = cid) = some r2 ∧ evaluateBranchingCondition r2.value cv = true)))
    ∧ List.Sorted (fun a b : TestQuestion => a.order ≤ b.order) (visibleList t rs)
    ∧ (visibleList t rs).Sublist (sortByOrder t.questions) := by
  have hvis : visibleList t rs = (sortByOrder t.questions).filter (fun q => shouldShowQuestion rs q) := by
    simp [visibleList, hb]
  haveI : IsTotal TestQuestion (fun a b => a.order ≤ b.order) := ⟨fun a b => le_total a.order b.order⟩
  haveI : IsTrans TestQuestion (fun a b => a.order ≤ b.order) := ⟨fun a b c h1 h2 => le_trans h1 h2⟩
  refine ⟨?_, ?_, ?_⟩
  · intro q
    rw [hvis, List.mem_filter, shouldShow_iff]
    unfold sortByOrder
    rw [(List.perm_insertionSort (fun a b : TestQuestion => a.order ≤ b.order) t.questions).mem_iff]
  · rw [hvis]
    unfold sortByOrder
    exact List.Pairwise.filter _
      (List.sorted_insertionSort (fun a b : TestQuestion => a.order ≤ b.order) t.questions)
  · rw [hvis]
    exact List.filter_sublist _

/-- C2 witness: the sortedness conjunct of the amended statement on the
concrete C2 fixture. -/
theorem c2_witness :
    List.Sorted (fun a b : TestQuestion => a.order ≤ b.order) (visibleList tC2 rsC2) :=
  (c2_theorem tC2 rsC2 rfl).2.1

/-- Helper: find? keeps an existing hit when the list is extended on the
right. -/
theorem find?_append_some {α : Type} (p : α → Bool) (l1 l2 : List α) (x : α)
    (h : l1.find? p = some x) : (l1 ++ l2).find? p = some x := by
  induction l1 with
  | nil => simp [List.find?] at h
  | cons a as ih =>
    rcases hpa : p a
    · rw [List.cons_append, List.find?_cons_of_neg _ (by simp [hpa])]
      rw [List.find?_cons_of_neg _ (by simp [hpa])] at h
      exact ih h
    · rw [List.cons_append, List.find?_cons_of_pos _ hpa]
      rw [List.find?_cons_of_pos _ hpa] at h
      exact h

/-- Helper: appending responses never hides a question that was visible:
the first response recorded for the condition question does not change. -/
theorem shouldShow_append (rs l : List TestResponse) (q : TestQuestion)
    (h : shouldShowQuestion rs q = true) : shouldShowQuestion (rs ++ l) q = true := by
  unfold shouldShowQuestion at h ⊢
  rcases hid : q.show_if_question_id with _ | cid
  · simp [hid]
  · rcases hvv : q.show_if_value with _ | cv
    · simp [hid, hvv]
    · simp only [hid, hvv] at h ⊢
      by_cases hz : cid = 0
      · simp [hz]
      · simp only [hz, if_false] at h ⊢
        rcases hf : rs.find? (fun r => r.question_id = cid) with _ | r2
        · rw [hf] at h
          exact absurd h (by simp)
        · rw [hf] at h
          rw [find?_append_some _ rs l r2 hf]
          exact h

/-- Helper: the visible list never shrinks when responses are appended. -/
theorem visibleList_length_append (t : TestTemplate) (rs l : List TestResponse) :
    (visibleList t rs).length ≤ (visibleList t (rs ++ l)).length := by
  unfold visibleList
  by_cases hb : t.branching_enabled = false
  · simp [hb]
  · simp only [hb, if_false]
    exact (List.monotone_filter_right _ (fun a ha => shouldShow_append rs l a ha)).length_le

/-- Helper: answerQuestion either leaves responses and pointer unchanged
(no current question, or validation failed) or appends exactly one
response for the current question and advances the pointer by one. -/
theorem answerQuestion_session (t : TestTemplate) (v : RValue) (ms : Option ℚ) (s : TestSession) :
    ((answerQuestion t v ms s).2.responses = s.responses
      ∧ (answerQuestion t v ms s).2.current_question = s.current_question)
    ∨ (∃ q, (getCurrentQuestion t s).1 = some q
        ∧ (answerQuestion t v ms s).2.responses
            = s.responses ++ [{ question_id := q.id, value := v, response_time_ms := ms, skipped := false }]
        ∧ (answerQuestion t v ms s).2.current_question = s.current_question + 1) := by
  rcases hq : (getCurrentQuestion t s).1 with _ | q
  · left
    constructor <;> simp [answerQuestion, hq, getCurrentQuestion_snd]
  · rcases hvb : validateResponse q v
    · left
      constructor <;> simp [answerQuestion, hq, hvb, getCurrentQuestion_snd]
    · right
      refine ⟨q, rfl, ?_, ?_⟩ <;>
        simp [answerQuestion, hq, hvb, getCurrentQuestion_snd, updateBranchingState]

/-- Helper: skipQuestion either leaves responses and pointer unchanged (no
current question, or it is required) or appends one skipped response and
advances the pointer by one. -/
theorem skipQuestion_session (t : TestTemplate) (s : TestSession) :
    ((skipQuestion t s).2.responses = s.responses
      ∧ (skipQuestion t s).2.current_question = s.current_question)
    ∨ (∃ q, (getCurrentQuestion t s).1 = some q
        ∧ (skipQuestion t s).2.responses
            = s.responses ++ [{ question_id := q.id, value := RValue.num 0, response_time_ms := none, skipped := true }]
        ∧ (skipQuestion t s).2.current_question = s.current_question + 1) := by
  rcases hq : (getCurrentQuestion t s).1 with _ | q
  · left
    constructor <;> simp [skipQuestion, hq, getCurrentQuestion_snd]
  · rcases hr : q.required
    · right
      refine ⟨q, rfl, ?_, ?_⟩ <;> simp [skipQuestion, hq, hr, getCurrentQuestion_snd]
    · left
      constructor <;> simp [skipQuestion, hq, hr, getCurrentQuestion_snd]

/-- C8 counterexample: on a template whose first two questions are
revealed by a later-ordered controlling question, three answers reach a
state with pointer 3 and three visible questions; previousQuestion then
deletes both responses to the controlling question, hiding the first two
questions again, and leaves the pointer at 2 while only one question is
visible - the invariant is not preserved by previousQuestion. -/
theorem c8_counterexample :
    ReachableAS tC8 sC8
    ∧ sC8.current_question ≤ (visibleList tC8 sC8.responses).length
    ∧ (visibleList tC8 (previousQuestion tC8 sC8).2.responses).length
        < (previousQuestion tC8 sC8).2.current_question := by
  refine ⟨?_, ?_, ?_⟩
  · exact Relation.ReflTransGen.tail
      (Relation.ReflTransGen.tail
        (Relation.ReflTransGen.tail Relation.ReflTransGen.refl
          (StepAS.answer (RValue.num 5) none initialSession))
        (StepAS.answer (RValue.num 5) none _))
      (StepAS.answer (RValue.num 7) none _)
  · norm_num [calculateResults, isComplete, getVisibleQuestions, getCurrentQuestion, visibleList, hiddenIds, sortByOrder, shouldShowQuestion, evaluateBranchingCondition, answerQuestion, skipQuestion, previousQuestion, validateResponse, updateBranchingState, setKey, delKey, calculateSimpleSum, calculateWeightedSum, calculateDimensionalScore, calculateCategoricalScore, rawScoreSimple, simpleSumStep, maxPossibleScore, dimensionScore, dimensionStep, getInterpretation, getRecommendations, calculatePercentileRank, jsRound, jsMaxList, jsAdd, jsMul, jsDiv, jsGe, jsLe, jsLt, jsGt, jsEqNum, parseRV, assessRisk, assessRiskAux, indicatorFires, riskThreshold, specC1MaxPossible, specC2ShouldShow, specC2VisibleList, specC3IndicatorFires, specC3AssessRisk, initialSession, baseQ, emptyGuide, evalFalse, qC1, tC1, sC1, qA2, qB2, tC2, rsC2, indC3, rsC3, qC4, tC4, qA5, qB5, tC5, sC5, qC6, tC6, rC6, rSkip, qa8, qb8, qz8, tC8, sC8, defaultResults, resC10, dedupFirst]
  · norm_num [calculateResults, isComplete, getVisibleQuestions, getCurrentQuestion, visibleList, hiddenIds, sortByOrder, shouldShowQuestion, evaluateBranchingCondition, answerQuestion, skipQuestion, previousQuestion, validateResponse, updateBranchingState, setKey, delKey, calculateSimpleSum, calculateWeightedSum, calculateDimensionalScore, calculateCategoricalScore, rawScoreSimple, simpleSumStep, maxPossibleScore, dimensionScore, dimensionStep, getInterpretation, getRecommendations, calculatePercentileRank, jsRound, jsMaxList, jsAdd, jsMul, jsDiv, jsGe, jsLe, jsLt, jsGt, jsEqNum, parseRV, assessRisk, assessRiskAux, indicatorFires, riskThreshold, specC1MaxPossible, specC2ShouldShow, specC2VisibleList, specC3IndicatorFires, specC3AssessRisk, initialSession, baseQ, emptyGuide, evalFalse, qC1, tC1, sC1, qA2, qB2, tC2, rsC2, indC3, rsC3, qC4, tC4, qA5, qB5, tC5, sC5, qC6, tC6, rC6, rSkip, qa8, qb8, qz8, tC8, sC8, defaultResults, resC10, dedupFirst]

/-- C8 amended: the invariant current_question <= length of the visible
list holds in every session reachable from the initial session by
answerQuestion and skipQuestion steps; previousQuestion does not
preserve it. -/
theorem c8_theorem (t : TestTemplate) (s : TestSession) (h : ReachableAS t s) :
    s.current_question ≤ (visibleList t s.responses).length := by
  induction h with
  | refl => simp [initialSession]
  | tail hr step ih =>
    rename_i b c
    cases step with
    | answer v ms =>
      rcases answerQuestion_session t v ms b with ⟨h1, h2⟩ | ⟨q, hq, h1, h2⟩
      · rw [h1, h2]; exact ih
      · rw [h1, h2]
        exact le_trans (getCurrentQuestion_some_lt t b q hq)
          (visibleList_length_append t b.responses _)
    | skip =>
      rcases skipQuestion_session t b with ⟨h1, h2⟩ | ⟨q, hq, h1, h2⟩
      · rw [h1, h2]; exact ih
      · rw [h1, h2]
        exact le_trans (getCurrentQuestion_some_lt t b q hq)
          (visibleList_length_append t b.responses _)

/-- C8 witness: the invariant at the trivially reachable initial session
of the C8 fixture. -/
theorem c8_witness :
    initialSession.current_question ≤ (visibleList tC8 initialSession.responses).length :=
  c8_theorem tC8 initialSession Relation.ReflTransGen.refl
